import Mathlib

/-!
Shallow embedding of `server.py` from the IT-Systems-Audit-Dashboards
backend: the data model, the pure risk-scoring and violation-classification
helpers, and the request handlers the claims concern.  Floats are modelled
as exact rationals (`ℚ`), datetimes as a record of an epoch instant plus the
local hour (`Fin 24`) and Python `weekday()` (`Fin 7`, Monday = 0), and the
MongoDB collections as Lean lists in natural (insertion) order.
-/

/-- `AccessResult` enum from `server.py`. -/
inductive AccessResult where
  | success
  | failed
  | suspicious
deriving DecidableEq, Repr

/-- `RiskLevel` enum from `server.py`. -/
inductive RiskLevel where
  | low
  | medium
  | high
  | critical
deriving DecidableEq, Repr

/-- `UserRole` enum from `server.py`. -/
inductive UserRole where
  | admin
  | user
  | manager
  | auditor
  | guest
deriving DecidableEq, Repr

/-- `ViolationType` enum from `server.py`. -/
inductive ViolationType where
  | unauthorized_access
  | privilege_escalation
  | failed_authentication
  | unusual_activity
  | segregation_duty_conflict
deriving DecidableEq, Repr

/-- A datetime as the code consumes it: an epoch instant in seconds (used
for `$gte` window comparisons), the local hour (`.hour`, 0–23) and Python's
`weekday()` (0 = Monday … 6 = Sunday). -/
structure Timestamp where
  epoch : ℤ
  hour : Fin 24
  weekday : Fin 7
deriving DecidableEq, Repr

/-- `UserAccessLog` pydantic model from `server.py`. -/
structure UserAccessLog where
  id : String
  user_id : String
  username : String
  user_role : UserRole
  access_time : Timestamp
  ip_address : String
  location : String
  resource_accessed : String
  access_result : AccessResult
  session_duration_minutes : Option ℕ := none
  failed_attempts : ℕ := 0
  privilege_changes : List String := []
  is_violation : Bool := false
  violation_type : Option ViolationType := none
  risk_score : ℚ := 0
deriving DecidableEq, Repr

/-- `AccessViolation` pydantic model from `server.py`. -/
structure AccessViolation where
  id : String
  log_id : String
  violation_type : ViolationType
  severity : RiskLevel
  description : String
  detected_at : ℤ
  resolved : Bool := false
deriving DecidableEq, Repr

/-- An HTTP error as raised by `HTTPException(status_code, detail)`. -/
structure HTTPError where
  status_code : ℕ
  detail : String
deriving DecidableEq, Repr

/-- Python `str()` of a (FastAPI/Starlette) `HTTPException`:
`"{status_code}: {detail}"`. -/
def httpExceptionStr (e : HTTPError) : String :=
  toString e.status_code ++ ": " ++ e.detail

/-- `calculate_risk_score` from `server.py`: the `score` accumulator starts
at `0.0`, gets `failed_attempts * 0.2`, `len(privilege_changes) * 0.3`,
`0.5` for a failed result else `0.8` for a suspicious one, `0.3` when the
hour is outside 7–19, `0.2` when `weekday() >= 5`, and is capped at `1.0`. -/
def calculate_risk_score (log : UserAccessLog) : ℚ :=
  min ((log.failed_attempts : ℚ) * (2/10)
    + (log.privilege_changes.length : ℚ) * (3/10)
    + (if log.access_result = AccessResult.failed then 5/10
       else if log.access_result = AccessResult.suspicious then 8/10 else 0)
    + (if log.access_time.hour.val < 7 ∨ 19 < log.access_time.hour.val then 3/10 else 0)
    + (if 5 ≤ log.access_time.weekday.val then 2/10 else 0)) 1

/-- `determine_risk_level` from `server.py`. -/
def determine_risk_level (score : ℚ) : RiskLevel :=
  if 8/10 ≤ score then RiskLevel.critical
  else if 6/10 ≤ score then RiskLevel.high
  else if 3/10 ≤ score then RiskLevel.medium
  else RiskLevel.low

/-- The violation condition of `generate_sample_data` (`server.py` lines
248–251): score > 0.6, or more than 3 failed attempts, or a non-empty
privilege-change list, or a suspicious result. -/
def generator_is_violation (log : UserAccessLog) : Prop :=
  6/10 < log.risk_score ∨ 3 < log.failed_attempts ∨
    0 < log.privilege_changes.length ∨ log.access_result = AccessResult.suspicious

instance (log : UserAccessLog) : Decidable (generator_is_violation log) := by
  unfold generator_is_violation; infer_instance

/-- The violation-type cascade of `generate_sample_data` (`server.py` lines
256–265), in the source's first-match order. -/
def generator_violation_type (log : UserAccessLog) : ViolationType :=
  if 0 < log.privilege_changes.length then ViolationType.privilege_escalation
  else if 3 < log.failed_attempts then ViolationType.failed_authentication
  else if log.access_result = AccessResult.suspicious then ViolationType.unusual_activity
  else if log.access_time.hour.val < 7 ∨ 19 < log.access_time.hour.val then
    ViolationType.unauthorized_access
  else ViolationType.segregation_duty_conflict

/-- The per-record classification step of `generate_sample_data`: set
`risk_score` via `calculate_risk_score`, then — when the violation
condition holds — set `is_violation` and `violation_type`. -/
def generator_classify (log : UserAccessLog) : UserAccessLog :=
  if generator_is_violation { log with risk_score := calculate_risk_score log } then
    { log with risk_score := calculate_risk_score log,
               is_violation := true,
               violation_type := some (generator_violation_type
                 { log with risk_score := calculate_risk_score log }) }
  else { log with risk_score := calculate_risk_score log }

/-- The claim-side risk-score formula (§4.1 of the spec), with the weekend
bonus phrased as "Saturday or Sunday" rather than the code's `weekday() >= 5`. -/
def risk_score_spec_formula (log : UserAccessLog) : ℚ :=
  min ((2/10) * (log.failed_attempts : ℚ)
    + (3/10) * (log.privilege_changes.length : ℚ)
    + (if log.access_result = AccessResult.failed then 5/10
       else if log.access_result = AccessResult.suspicious then 8/10 else 0)
    + (if log.access_time.hour.val < 7 ∨ 19 < log.access_time.hour.val then 3/10 else 0)
    + (if log.access_time.weekday.val = 5 ∨ log.access_time.weekday.val = 6 then 2/10 else 0)) 1

/-- The Mongo query predicate built by `get_access_logs` (`server.py` lines
413–426): optional `is_violation = true` constraint, and per requested
level the numeric `risk_score` band `{"$gte": ..., "$lt": ...}`. -/
def access_logs_query (violations_only : Bool) (risk_level : Option RiskLevel)
    (log : UserAccessLog) : Prop :=
  (violations_only = true → log.is_violation = true) ∧
  (match risk_level with
   | none => True
   | some RiskLevel.critical => 8/10 ≤ log.risk_score
   | some RiskLevel.high => 6/10 ≤ log.risk_score ∧ log.risk_score < 8/10
   | some RiskLevel.medium => 3/10 ≤ log.risk_score ∧ log.risk_score < 6/10
   | some RiskLevel.low => log.risk_score < 3/10)

/-- A concrete Monday-morning access log (10:00, successful, no failed
attempts, no privilege changes) used to instantiate the theorems. -/
def baseLog : UserAccessLog :=
  { id := "log-1", user_id := "USR001", username := "john.doe",
    user_role := UserRole.admin,
    access_time := { epoch := 0, hour := ⟨10, by norm_num⟩, weekday := ⟨0, by norm_num⟩ },
    ip_address := "192.168.1.100", location := "New York, NY",
    resource_accessed := "Financial Database",
    access_result := AccessResult.success }

/-- C3: the risk scorer is exactly the §4.1 formula (weekend bonus on
Saturday/Sunday), and every score lies in `[0, 1]`. -/
theorem calculate_risk_score_formula (log : UserAccessLog) :
    calculate_risk_score log = risk_score_spec_formula log ∧
    0 ≤ calculate_risk_score log ∧ calculate_risk_score log ≤ 1 := by
  have hw := log.access_time.weekday.isLt
  refine ⟨?_, ?_, min_le_right _ _⟩
  · have hcond : (5 ≤ log.access_time.weekday.val) ↔
        (log.access_time.weekday.val = 5 ∨ log.access_time.weekday.val = 6) := by omega
    unfold calculate_risk_score risk_score_spec_formula
    simp only [hcond]
    congr 1
    ring
  · unfold calculate_risk_score
    refine le_min ?_ (by norm_num)
    split_ifs <;> positivity

/-- C6: the risk-level classifier realises the half-open bands
`[0.8, ∞)` → critical, `[0.6, 0.8)` → high, `[0.3, 0.6)` → medium,
`(-∞, 0.3)` → low, each lower bound inclusive; in particular `0.6 ↦ high`
and `0.8 ↦ critical`. -/
theorem determine_risk_level_bands (score : ℚ) :
    (determine_risk_level score = RiskLevel.critical ↔ 8/10 ≤ score) ∧
    (determine_risk_level score = RiskLevel.high ↔ 6/10 ≤ score ∧ score < 8/10) ∧
    (determine_risk_level score = RiskLevel.medium ↔ 3/10 ≤ score ∧ score < 6/10) ∧
    (determine_risk_level score = RiskLevel.low ↔ score < 3/10) ∧
    determine_risk_level (6/10) = RiskLevel.high ∧
    determine_risk_level (8/10) = RiskLevel.critical := by
  refine ⟨?_, ?_, ?_, ?_, by norm_num [determine_risk_level],
    by norm_num [determine_risk_level]⟩ <;>
    · unfold determine_risk_level
      split_ifs <;> simp_all <;> first | linarith | (intro h; linarith)

/-- C4: a generated record is flagged as a violation iff its score exceeds
0.6 strictly, or it has more than 3 failed attempts, or a non-empty
privilege-change list, or a suspicious result; a record scoring exactly 0.6
that meets none of the other conditions is not flagged. -/
theorem generator_violation_flag_iff (log : UserAccessLog)
    (h : log.is_violation = false) :
    ((generator_classify log).is_violation = true ↔
      (6/10 < calculate_risk_score log ∨ 3 < log.failed_attempts ∨
        log.privilege_changes ≠ [] ∨ log.access_result = AccessResult.suspicious)) ∧
    (calculate_risk_score log = 6/10 → log.failed_attempts ≤ 3 →
      log.privilege_changes = [] → log.access_result ≠ AccessResult.suspicious →
      (generator_classify log).is_violation = false) := by
  have hmain : (generator_classify log).is_violation = true ↔
      (6/10 < calculate_risk_score log ∨ 3 < log.failed_attempts ∨
        log.privilege_changes ≠ [] ∨ log.access_result = AccessResult.suspicious) := by
    unfold generator_classify generator_is_violation
    split_ifs with hv <;> simp_all [List.length_pos_iff_ne_nil]
  refine ⟨hmain, fun hs hf hp hr => ?_⟩
  rcases Bool.eq_false_or_eq_true (generator_classify log).is_violation with hb | hb
  · exfalso
    rcases hmain.mp hb with h1 | h1 | h1 | h1
    · rw [hs] at h1; exact lt_irrefl _ h1
    · omega
    · exact h1 hp
    · exact hr h1
  · exact hb

/-- A record whose computed risk score is exactly 0.6 (three failed
attempts, everything else quiet): the violation boundary case. -/
def boundaryLog : UserAccessLog := { baseLog with failed_attempts := 3 }

/-- Witness for C4: the boundary record scores exactly 0.6 and is not
flagged as a violation. -/
theorem generator_violation_flag_iff_witness :
    (generator_classify boundaryLog).is_violation = false :=
  (generator_violation_flag_iff boundaryLog rfl).2
    (by
      simp [calculate_risk_score, boundaryLog, baseLog, min_def]
      norm_num [show ((10 : Fin 24) : ℕ) = 10 from rfl])
    (by norm_num [boundaryLog, baseLog])
    rfl
    (by simp [boundaryLog, baseLog])

/-- C5: for a flagged record the violation type follows the source's
first-matching cascade: privilege changes, then failed attempts, then a
suspicious result, then off-hours access, then the segregation fallback. -/
theorem generator_violation_type_priority (log : UserAccessLog)
    (h0 : log.is_violation = false)
    (hv : (generator_classify log).is_violation = true) :
    (log.privilege_changes ≠ [] →
      (generator_classify log).violation_type = some ViolationType.privilege_escalation) ∧
    (log.privilege_changes = [] → 3 < log.failed_attempts →
      (generator_classify log).violation_type = some ViolationType.failed_authentication) ∧
    (log.privilege_changes = [] → log.failed_attempts ≤ 3 →
      log.access_result = AccessResult.suspicious →
      (generator_classify log).violation_type = some ViolationType.unusual_activity) ∧
    (log.privilege_changes = [] → log.failed_attempts ≤ 3 →
      log.access_result ≠ AccessResult.suspicious →
      (log.access_time.hour.val < 7 ∨ 19 < log.access_time.hour.val) →
      (generator_classify log).violation_type = some ViolationType.unauthorized_access) ∧
    (log.privilege_changes = [] → log.failed_attempts ≤ 3 →
      log.access_result ≠ AccessResult.suspicious →
      ¬(log.access_time.hour.val < 7 ∨ 19 < log.access_time.hour.val) →
      (generator_classify log).violation_type = some ViolationType.segregation_duty_conflict) := by
  unfold generator_classify at hv ⊢
  split_ifs at hv ⊢ with hcond
  · unfold generator_violation_type
    refine ⟨?_, ?_, ?_, ?_, ?_⟩ <;> intros <;>
      split_ifs <;> simp_all [List.length_pos_iff_ne_nil] <;> omega
  · simp_all

/-- A record with privilege changes and ten failed attempts: the priority
example from the spec. -/
def escalationLog : UserAccessLog :=
  { baseLog with privilege_changes := ["elevated_to_admin"], failed_attempts := 10 }

/-- Witness for C5: privilege changes win the cascade even with ten failed
attempts — the record classifies as privilege_escalation. -/
theorem generator_violation_type_priority_witness :
    (generator_classify escalationLog).violation_type =
      some ViolationType.privilege_escalation :=
  (generator_violation_type_priority escalationLog rfl
      (by simp [generator_classify, generator_is_violation, calculate_risk_score,
        escalationLog, baseLog, min_def])).1
    (by simp [escalationLog, baseLog])

/-- C10: on scores in `[0, 1]` the `risk_level` filter of `GET /access-logs`
selects a record exactly when `determine_risk_level` maps its score to the
requested level. -/
theorem risk_level_filter_agrees_with_level (L : RiskLevel) (log : UserAccessLog)
    (h0 : 0 ≤ log.risk_score) (h1 : log.risk_score ≤ 1) :
    (access_logs_query false (some L) log ↔
      determine_risk_level log.risk_score = L) := by
  unfold access_logs_query determine_risk_level
  cases L <;> simp only [false_and, Bool.false_eq_true, false_implies, true_and] <;>
    split_ifs <;> simp_all <;> first | linarith | (intro h; linarith)

/-- A record scoring 0.5, selected by the medium filter band. -/
def mediumLog : UserAccessLog := { baseLog with risk_score := 1/2 }

/-- Witness for C10: the medium band at score 0.5 agrees with the
classifier. -/
theorem risk_level_filter_agrees_with_level_witness :
    determine_risk_level mediumLog.risk_score = RiskLevel.medium :=
  (risk_level_filter_agrees_with_level RiskLevel.medium mediumLog
      (by norm_num [mediumLog, baseLog]) (by norm_num [mediumLog, baseLog])).mp
    (by norm_num [access_logs_query, mediumLog, baseLog])

/-- Mongo `update_one({"id": violation_id}, {"$set": {"resolved": True}})`
on the violations collection: set `resolved` on the first document whose
`id` matches; returns the new collection and `matched_count`. -/
def update_first (violations : List AccessViolation) (vid : String) :
    List AccessViolation × ℕ :=
  match violations with
  | [] => ([], 0)
  | v :: rest =>
    if v.id = vid then ({ v with resolved := true } :: rest, 1)
    else ((v :: (update_first rest vid).1), (update_first rest vid).2)

/-- The `try/except Exception` boundary shared by the handlers that lack an
`except HTTPException` re-raise: a raised `HTTPException` is itself an
`Exception`, so it is caught and re-raised as a 500 whose detail is the
given message prefix followed by `str(e)`. -/
def except_wrap {α : Type} (pre : String) : Except HTTPError α → Except HTTPError α
  | Except.ok a => Except.ok a
  | Except.error e => Except.error ⟨500, pre ++ httpExceptionStr e⟩

/-- The `try`-block body of `resolve_violation` (`server.py` lines
449–458): run the update, raise `HTTPException(404, "Violation not
found")` when nothing matched, otherwise return the success message. -/
def resolve_violation_try (violations : List AccessViolation) (violation_id : String) :
    List AccessViolation × Except HTTPError String :=
  if (update_first violations violation_id).2 = 0 then
    ((update_first violations violation_id).1,
     Except.error ⟨404, "Violation not found"⟩)
  else
    ((update_first violations violation_id).1,
     Except.ok "Violation resolved successfully")

/-- `resolve_violation` (`server.py` lines 446–460) as a whole: the body
wrapped in the blanket `except Exception as e` → `HTTPException(500,
str(e))`. -/
def resolve_violation (violations : List AccessViolation) (violation_id : String) :
    List AccessViolation × Except HTTPError String :=
  ((resolve_violation_try violations violation_id).1,
   except_wrap "" (resolve_violation_try violations violation_id).2)

/-- `.sort("access_time", -1)` on a result set: most recent first. -/
def sort_access_time_desc (logs : List UserAccessLog) : List UserAccessLog :=
  logs.mergeSort (fun a b => b.access_time.epoch ≤ a.access_time.epoch)

/-- The `unauthorized_access` analytic query's `$or` filter (`server.py`
lines 606–611). -/
def sql_unauthorized_access_match (log : UserAccessLog) : Bool :=
  decide ((log.access_result = AccessResult.failed ∧ 3 < log.failed_attempts) ∨
    log.access_result = AccessResult.suspicious ∨
    (log.is_violation = true ∧
      log.violation_type = some ViolationType.unauthorized_access))

/-- The `try`-block body of `execute_sql_query` (`server.py` lines
602–650): dispatch on `query_request.get("query_type")` (absent key gives
`None`), one branch per known tag, each returning the tag, the result
count and the matching records most recent first capped at 50 (100 for
`failed_logins`); an unknown tag raises `HTTPException(400, "Invalid query
type")`. -/
def execute_sql_query_try (store : List UserAccessLog) (query_type : Option String) :
    Except HTTPError (String × ℕ × List UserAccessLog) :=
  if query_type = some "unauthorized_access" then
    Except.ok ("unauthorized_access",
      ((sort_access_time_desc (store.filter sql_unauthorized_access_match)).take 50).length,
      (sort_access_time_desc (store.filter sql_unauthorized_access_match)).take 50)
  else if query_type = some "privilege_escalation" then
    Except.ok ("privilege_escalation",
      ((sort_access_time_desc
        (store.filter fun log => decide (log.privilege_changes ≠ []))).take 50).length,
      (sort_access_time_desc
        (store.filter fun log => decide (log.privilege_changes ≠ []))).take 50)
  else if query_type = some "segregation_conflicts" then
    Except.ok ("segregation_conflicts",
      ((sort_access_time_desc (store.filter fun log =>
        decide (log.violation_type = some ViolationType.segregation_duty_conflict))).take 50).length,
      (sort_access_time_desc (store.filter fun log =>
        decide (log.violation_type = some ViolationType.segregation_duty_conflict))).take 50)
  else if query_type = some "failed_logins" then
    Except.ok ("failed_logins",
      ((sort_access_time_desc (store.filter fun log =>
        decide (log.access_result = AccessResult.failed))).take 100).length,
      (sort_access_time_desc (store.filter fun log =>
        decide (log.access_result = AccessResult.failed))).take 100)
  else if query_type = some "off_hours_access" then
    Except.ok ("off_hours_access",
      ((sort_access_time_desc (store.filter fun log =>
        decide (log.access_time.hour.val < 7 ∨ 19 < log.access_time.hour.val))).take 50).length,
      (sort_access_time_desc (store.filter fun log =>
        decide (log.access_time.hour.val < 7 ∨ 19 < log.access_time.hour.val))).take 50)
  else Except.error ⟨400, "Invalid query type"⟩

/-- `execute_sql_query` (`server.py` lines 598–663) as a whole: the body
wrapped in `except Exception as e` → `HTTPException(500, f"Query execution
failed: {str(e)}")`, which also catches the body's own 400. -/
def execute_sql_query (store : List UserAccessLog) (query_type : Option String) :
    Except HTTPError (String × ℕ × List UserAccessLog) :=
  except_wrap "Query execution failed: " (execute_sql_query_try store query_type)

/-- A sample violation document with the given id (unresolved). -/
def exViolation (vid : String) : AccessViolation :=
  { id := vid, log_id := "log-1",
    violation_type := ViolationType.privilege_escalation,
    severity := RiskLevel.high,
    description := "Risk Score: 0.90, Failed Attempts: 0, Privilege Changes: 1, Access Result: success",
    detected_at := 0 }

/-- C1 (code bug): resolving an unknown violation id leaves the store
unchanged, but the handler answers 500, not 404 — the `try` block's own
`HTTPException(404, "Violation not found")` is caught by the blanket
`except Exception` and re-raised as `HTTPException(500, str(e))`. -/
theorem resolve_unknown_violation_returns_500 :
    resolve_violation [exViolation "v1"] "missing" =
      ([exViolation "v1"], Except.error ⟨500, "404: Violation not found"⟩) ∧
    resolve_violation_try [exViolation "v1"] "missing" =
      ([exViolation "v1"], Except.error ⟨404, "Violation not found"⟩) := by
  constructor <;> rfl

/-- C2 (code bug): an unknown `query_type` is answered with 500, not 400 —
the `try` block raises `HTTPException(400, "Invalid query type")` but the
blanket `except Exception` catches it and re-raises it as a 500 whose
detail wraps `str(e)`. -/
theorem sql_query_unknown_type_returns_500 :
    execute_sql_query [baseLog] (some "bogus") =
      Except.error ⟨500, "Query execution failed: 400: Invalid query type"⟩ ∧
    execute_sql_query_try [baseLog] (some "bogus") =
      Except.error ⟨400, "Invalid query type"⟩ := by
  constructor <;> rfl

/-- `update_first` reports `matched_count = 0` exactly when no stored
violation carries the requested id. -/
theorem update_first_matched_eq_zero (violations : List AccessViolation) (vid : String) :
    (update_first violations vid).2 = 0 ↔ ∀ v ∈ violations, v.id ≠ vid := by
  induction violations with
  | nil => simp [update_first]
  | cons v rest ih =>
    by_cases h : v.id = vid <;> simp [update_first, h, ih]

/-- Applying `update_first` a second time with the same id changes
nothing: the first match is already resolved and keeps its id. -/
theorem update_first_idem (violations : List AccessViolation) (vid : String) :
    update_first (update_first violations vid).1 vid = update_first violations vid := by
  induction violations with
  | nil => rfl
  | cons v rest ih =>
    by_cases h : v.id = vid
    · simp [update_first, h]
    · simp [update_first, h, ih]

/-- Positionally, `update_first` either keeps a document or only sets its
`resolved` flag to true. -/
theorem update_first_get? (violations : List AccessViolation) (vid : String) (i : ℕ) :
    (update_first violations vid).1.get? i = violations.get? i ∨
    (∃ v, violations.get? i = some v ∧
      (update_first violations vid).1.get? i = some { v with resolved := true }) := by
  induction violations generalizing i with
  | nil => left; rfl
  | cons v rest ih =>
    by_cases h : v.id = vid
    · cases i with
      | zero => right; exact ⟨v, rfl, by simp [update_first, h]⟩
      | succ n => left; simp [update_first, h]
    · cases i with
      | zero => left; simp [update_first, h]
      | succ n => simpa [update_first, h] using ih n

/-- The store component of `resolve_violation` is the updated collection,
whether or not anything matched. -/
theorem resolve_violation_fst (violations : List AccessViolation) (vid : String) :
    (resolve_violation violations vid).1 = (update_first violations vid).1 := by
  unfold resolve_violation resolve_violation_try
  split_ifs <;> rfl

/-- C9: resolving an id that matches a stored violation succeeds (also when
that violation is already resolved), resolving twice equals resolving once,
and a document whose `resolved` flag is true keeps it true — the flag never
flips back. -/
theorem resolve_violation_idempotent (violations : List AccessViolation) (vid : String)
    (h : ∃ v ∈ violations, v.id = vid) :
    (resolve_violation violations vid).2 = Except.ok "Violation resolved successfully" ∧
    resolve_violation (resolve_violation violations vid).1 vid =
      resolve_violation violations vid ∧
    (∀ i : ℕ, ∀ v, violations.get? i = some v → v.resolved = true →
      ∃ w, (resolve_violation violations vid).1.get? i = some w ∧ w.resolved = true) := by
  obtain ⟨v, hv, hid⟩ := h
  have hm : ¬ (update_first violations vid).2 = 0 := by
    rw [update_first_matched_eq_zero]
    push_neg
    exact ⟨v, hv, hid⟩
  have hidem := update_first_idem violations vid
  refine ⟨?_, ?_, ?_⟩
  · simp [resolve_violation, resolve_violation_try, except_wrap, hm]
  · simp [resolve_violation, resolve_violation_try, except_wrap, hm, hidem]
  · intro i w hget hres
    rcases update_first_get? violations vid i with hsame | ⟨v', hv', hnew⟩
    · exact ⟨w, by rw [resolve_violation_fst, hsame, hget], hres⟩
    · refine ⟨{ v' with resolved := true }, by rw [resolve_violation_fst, hnew], rfl⟩

/-- A violation document that is already resolved. -/
def resolvedViolation : AccessViolation := { exViolation "v1" with resolved := true }

/-- Witness for C9: resolving the already-resolved violation `v1` succeeds
without error. -/
theorem resolve_violation_idempotent_witness :
    (resolve_violation [resolvedViolation] "v1").2 =
      Except.ok "Violation resolved successfully" :=
  (resolve_violation_idempotent [resolvedViolation] "v1"
    ⟨resolvedViolation, by simp, rfl⟩).1

/-- `DashboardStats` response model from `server.py`. -/
structure DashboardStats where
  total_access_logs : ℕ
  active_violations : ℕ
  high_risk_users : ℕ
  failed_logins_today : ℕ
  privilege_escalations_week : ℕ
  compliance_score : ℚ
deriving DecidableEq, Repr

/-- Python `round(q)`: banker's rounding, ties go to the even integer. -/
def pyRoundHalfEven (q : ℚ) : ℤ :=
  if q - Int.floor q < 1/2 then Int.floor q
  else if 1/2 < q - Int.floor q then Int.floor q + 1
  else if Int.floor q % 2 = 0 then Int.floor q else Int.floor q + 1

/-- Python `round(q, 1)`: round to one decimal place. -/
def pyRound1 (q : ℚ) : ℚ := (pyRoundHalfEven (q * 10) : ℚ) / 10

/-- `get_dashboard_stats` (`server.py` lines 356–400) over a store
snapshot.  `today_start` is midnight of the current day, the trailing week
starts at `now - 7 days`, `high_risk_users` counts distinct user ids of
records scoring above 0.6 (the `$group` aggregation), and the compliance
score is `round(max(0, (total - active) / total * 100), 1)` when any log
exists, else `100.0`. -/
def get_dashboard_stats (logs : List UserAccessLog)
    (violations : List AccessViolation) (now today_start : ℤ) : DashboardStats :=
  { total_access_logs := logs.length
    active_violations := (violations.filter fun v => !v.resolved).length
    high_risk_users :=
      ((logs.filter fun log => decide (6/10 < log.risk_score)).map
        (fun log => log.user_id)).dedup.length
    failed_logins_today := (logs.filter fun log =>
      decide (log.access_result = AccessResult.failed ∧
        today_start ≤ log.access_time.epoch)).length
    privilege_escalations_week := (logs.filter fun log =>
      decide (log.privilege_changes ≠ [] ∧
        now - 7 * 86400 ≤ log.access_time.epoch)).length
    compliance_score :=
      pyRound1 (if 0 < logs.length then
        max 0 (((logs.length : ℚ) -
          ((violations.filter fun v => !v.resolved).length : ℚ)) /
          (logs.length : ℚ) * 100)
      else 100) }

/-- C7 counterexample: with 1 access log and 2 unresolved violations the
code's `max(0, ·)` clamp answers 0.0, while the claim's bare formula
`100 × (total − active) / total` yields −100.0. -/
theorem compliance_score_clamp_counterexample :
    (get_dashboard_stats [baseLog] [exViolation "v1", exViolation "v2"]
      0 0).compliance_score = 0 ∧
    pyRound1 ((((1:ℕ):ℚ) - ((2:ℕ):ℚ)) / ((1:ℕ):ℚ) * 100) = -100 ∧
    (0 : ℚ) ≠ -100 := by
  refine ⟨?_, ?_, by norm_num⟩
  · simp [get_dashboard_stats, exViolation]
    norm_num [pyRound1, pyRoundHalfEven, max_def]
  · norm_num [pyRound1, pyRoundHalfEven]

/-- C7 amended: whenever the count of unresolved violations does not
exceed the log count — true of every store the generator/resolve API can
produce — the compliance score equals the claim's formula
(`100 × (total − active) / total` rounded to one decimal when total > 0,
else 100.0); the code additionally clamps the value below at 0.  The
spec's example: total 10, active 3 gives 70.0. -/
theorem compliance_score_spec_amended (logs : List UserAccessLog)
    (violations : List AccessViolation) (now today_start : ℤ)
    (h : (violations.filter fun v => !v.resolved).length ≤ logs.length) :
    (get_dashboard_stats logs violations now today_start).compliance_score =
      (if 0 < logs.length then
        pyRound1 (((logs.length : ℚ) -
          ((violations.filter fun v => !v.resolved).length : ℚ)) /
          (logs.length : ℚ) * 100)
      else 100) ∧
    (get_dashboard_stats (List.replicate 10 baseLog)
      [exViolation "v1", exViolation "v2", exViolation "v3"]
      0 0).compliance_score = 70 := by
  constructor
  · unfold get_dashboard_stats
    by_cases hl : 0 < logs.length
    · have hcast : ((violations.filter fun v => !v.resolved).length : ℚ) ≤
          (logs.length : ℚ) := by exact_mod_cast h
      have hnn : (0:ℚ) ≤ ((logs.length : ℚ) -
          ((violations.filter fun v => !v.resolved).length : ℚ)) /
          (logs.length : ℚ) * 100 := by
        apply mul_nonneg
        · apply div_nonneg
          · linarith
          · positivity
        · norm_num
      simp only [hl, if_true, max_eq_right hnn]
    · simp only [hl, if_false]
      norm_num [pyRound1, pyRoundHalfEven]
  · simp [get_dashboard_stats, exViolation]
    norm_num [pyRound1, pyRoundHalfEven, max_def]

/-- Witness for C7's amended theorem at the spec's example: ten logs and
three unresolved violations give a compliance score of 70.0. -/
theorem compliance_score_spec_amended_witness :
    (get_dashboard_stats (List.replicate 10 baseLog)
      [exViolation "v1", exViolation "v2", exViolation "v3"]
      0 0).compliance_score = 70 :=
  (compliance_score_spec_amended (List.replicate 10 baseLog)
    [exViolation "v1", exViolation "v2", exViolation "v3"] 0 0
    (by simp [exViolation])).2

/-- The user's access records in the trailing 7-day window: the Mongo
filter `{"user_id": uid, "access_time": {"$gte": now - 7 days}}` over the
collection in natural order (`server.py` lines 467–471). -/
def user_window_logs (store : List UserAccessLog) (uid : String) (now : ℤ) :
    List UserAccessLog :=
  store.filter fun log =>
    decide (log.user_id = uid ∧ now - 7 * 86400 ≤ log.access_time.epoch)

/-- `sum(log.risk_score for log in user_logs) / len(user_logs)`. -/
def meanRiskScore (logs : List UserAccessLog) : ℚ :=
  (logs.map (fun log => log.risk_score)).sum / (logs.length : ℚ)

/-- The fixed-order risk-factor labels of `get_user_risk_assessment`
(`server.py` lines 483–491). -/
def assessment_risk_factors (logs : List UserAccessLog) : List String :=
  (if logs.any (fun log => decide (3 < log.failed_attempts)) then
    ["Multiple failed login attempts"] else []) ++
  (if logs.any (fun log => decide (log.privilege_changes ≠ [])) then
    ["Recent privilege changes"] else []) ++
  (if logs.any (fun log =>
      decide (log.access_time.hour.val < 7 ∨ 19 < log.access_time.hour.val)) then
    ["Off-hours access detected"] else []) ++
  (if 0 < (logs.filter (fun log => log.is_violation)).length then
    ["Recent security violations"] else [])

/-- The recommendation rules of `get_user_risk_assessment` (`server.py`
lines 497–505): three independent predicate→label rules, with a default
label when none fired. -/
def assessment_recommendations (avg : ℚ) (logs : List UserAccessLog)
    (risk_factors : List String) : List String :=
  if ((if 6/10 < avg then ["Implement additional authentication factors"] else []) ++
      (if logs.any (fun log => decide (5 < log.failed_attempts)) then
        ["Review account security and reset password"] else []) ++
      (if 2 < risk_factors.length then
        ["Conduct security awareness training"] else [])) = [] then
    ["Continue monitoring user activity"]
  else
    (if 6/10 < avg then ["Implement additional authentication factors"] else []) ++
    (if logs.any (fun log => decide (5 < log.failed_attempts)) then
      ["Review account security and reset password"] else []) ++
    (if 2 < risk_factors.length then ["Conduct security awareness training"] else [])

/-- The store-derived fields of the `RiskAssessment` the endpoint returns
(the AI narrative is an external call and elided). -/
structure RiskAssessmentOut where
  user_id : String
  overall_risk_score : ℚ
  risk_level : RiskLevel
  risk_factors : List String
  recommendations : List String
deriving DecidableEq, Repr

/-- `get_user_risk_assessment` (`server.py` lines 462–523): fetch the
user's trailing-7-day records — capped at 100 by `.to_list(100)` —, 404
when there are none, else average their risk scores, classify the average,
and assemble the factor and recommendation labels. -/
def get_user_risk_assessment (store : List UserAccessLog) (uid : String) (now : ℤ) :
    Except HTTPError RiskAssessmentOut :=
  if (user_window_logs store uid now).take 100 = [] then
    Except.error ⟨404, "No recent activity found for user"⟩
  else
    Except.ok
      { user_id := uid
        overall_risk_score := meanRiskScore ((user_window_logs store uid now).take 100)
        risk_level :=
          determine_risk_level (meanRiskScore ((user_window_logs store uid now).take 100))
        risk_factors := assessment_risk_factors ((user_window_logs store uid now).take 100)
        recommendations := assessment_recommendations
          (meanRiskScore ((user_window_logs store uid now).take 100))
          ((user_window_logs store uid now).take 100)
          (assessment_risk_factors ((user_window_logs store uid now).take 100)) }

/-- A window record for user `u` scoring 0. -/
def capLog : UserAccessLog := { baseLog with user_id := "u" }

/-- A window record for user `u` scoring 1. -/
def capLogOne : UserAccessLog := { baseLog with user_id := "u", risk_score := 1 }

/-- 101 window records for user `u`: one hundred scoring 0 followed by one
scoring 1, all timestamped `now`. -/
def capStore : List UserAccessLog := List.replicate 100 capLog ++ [capLogOne]

/-- C8 counterexample: with 101 records in the window the endpoint averages
only the first 100 retrieved (`to_list(100)`) and answers 0, while the mean
over all the user's window records is 1/101. -/
theorem risk_assessment_window_cap_counterexample :
    (get_user_risk_assessment capStore "u" 0).toOption.map
        (fun r => r.overall_risk_score) = some 0 ∧
    meanRiskScore (user_window_logs capStore "u" 0) = 1/101 ∧
    (0 : ℚ) ≠ 1/101 := by
  have hwin : user_window_logs capStore "u" 0 = capStore := by decide
  have htake : capStore.take 100 = List.replicate 100 capLog := by decide
  have hz : capLog.risk_score = 0 := rfl
  have ho : capLogOne.risk_score = 1 := rfl
  refine ⟨?_, ?_, by norm_num⟩
  · unfold get_user_risk_assessment
    rw [hwin, htake, if_neg (by decide)]
    show some (meanRiskScore (List.replicate 100 capLog)) = some 0
    have hmean : meanRiskScore (List.replicate 100 capLog) = 0 := by
      unfold meanRiskScore
      simp only [List.map_replicate, List.length_replicate]
      rw [hz, List.sum_replicate, smul_zero, zero_div]
    rw [hmean]
  · rw [hwin]
    unfold meanRiskScore capStore
    simp only [List.map_append, List.map_replicate, List.map_cons, List.map_nil,
      List.sum_append, List.sum_replicate, List.sum_cons, List.sum_nil,
      List.length_append, List.length_replicate, List.length_cons,
      List.length_nil, hz, ho, smul_zero]
    norm_num

/-- C8 amended: the endpoint 404s exactly when the user has no record in
the trailing 7-day window; otherwise the returned overall score is the
mean over the first min(100, n) window records (`to_list(100)` caps
retrieval at 100) — hence over all of them whenever the user has at most
100 — and the risk level is the classifier applied to that mean. -/
theorem user_risk_assessment_spec_amended (store : List UserAccessLog)
    (uid : String) (now : ℤ) :
    (get_user_risk_assessment store uid now =
        Except.error ⟨404, "No recent activity found for user"⟩ ↔
      user_window_logs store uid now = []) ∧
    (∀ r, get_user_risk_assessment store uid now = Except.ok r →
      r.overall_risk_score = meanRiskScore ((user_window_logs store uid now).take 100) ∧
      r.risk_level = determine_risk_level r.overall_risk_score ∧
      ((user_window_logs store uid now).length ≤ 100 →
        r.overall_risk_score = meanRiskScore (user_window_logs store uid now))) := by
  constructor
  · unfold get_user_risk_assessment
    by_cases hw : (user_window_logs store uid now).take 100 = []
    · rw [if_pos hw]
      rw [List.take_eq_nil_iff] at hw
      rcases hw with h100 | hnil
      · exact absurd h100 (by norm_num)
      · simp [hnil]
    · rw [if_neg hw]
      constructor
      · intro hcontra
        exact absurd hcontra (by simp)
      · intro hnil
        exact absurd (by rw [hnil]; rfl) hw
  · intro r hr
    unfold get_user_risk_assessment at hr
    by_cases hw : (user_window_logs store uid now).take 100 = []
    · rw [if_pos hw] at hr
      exact absurd hr (by simp)
    · rw [if_neg hw] at hr
      have heq := Except.ok.inj hr
      subst heq
      refine ⟨rfl, rfl, fun hlen => ?_⟩
      rw [List.take_of_length_le hlen]

/-- A single in-window record scoring 0.5 for user `USR001`. -/
def windowLog : UserAccessLog := { baseLog with risk_score := 1/2 }

/-- Witness for C8's amended theorem: with a single in-window record the
returned overall score is the mean over all the user's window records. -/
theorem user_risk_assessment_spec_amended_witness :
    (⟨"USR001", 1/2, RiskLevel.medium, [], ["Continue monitoring user activity"]⟩ :
        RiskAssessmentOut).overall_risk_score =
      meanRiskScore (user_window_logs [windowLog] "USR001" 0) :=
  ((user_risk_assessment_spec_amended [windowLog] "USR001" 0).2
      ⟨"USR001", 1/2, RiskLevel.medium, [], ["Continue monitoring user activity"]⟩
      (by
        simp [get_user_risk_assessment, user_window_logs, windowLog, baseLog,
          meanRiskScore, assessment_risk_factors, assessment_recommendations,
          determine_risk_level]
        norm_num [show ((10 : Fin 24) : ℕ) = 10 from rfl])).2.2
    (by simp [user_window_logs, windowLog, baseLog])
